import Mathlib

/-!
Verification of the jaycrest authentication core.

The repository has two Express server variants:
 * `src/unnamed/part_000` (routes `/auth/register`, `/auth/login`,
   `/students/profile`, with an `auth` middleware) — embedded below with
   suffix `P`;
 * `src/server.js` (routes `/api/auth/register`, `/api/auth/login`) —
   embedded with suffix `S`.

Password hashing (bcryptjs) and token signing (jsonwebtoken) are external
primitives; they are modelled algebraically: a hash is an opaque value
determined by the plaintext and cost, and compare checks plaintext
equality; a signed token is an opaque record of its payload, issue time,
expiry and signing secret, and verification checks the secret and the
expiry clock, exactly the observable contract of the libraries.
The postgres `users` table is a list of accounts; the `INSERT` is modelled
with the uniqueness and check constraints of the DDL of each file.
-/

set_option autoImplicit false

namespace Jaycrest

/-- The payload signed into a token by both login handlers: `{ id, role }`. -/
structure JwtPayload where
  id : Nat
  role : String
deriving DecidableEq, Repr

/-- Model of a token produced by `jwt.sign(payload, secret, { expiresIn })`:
the signed payload, the issue time, the expiry time, and the secret the
signature binds it to. -/
structure TokenVal where
  payload : JwtPayload
  iat : Nat
  exp : Nat
  secret : String
deriving DecidableEq, Repr

/-- JSON-like values appearing in request/response bodies.  A signed token
is carried as an opaque value (`tok`), as jsonwebtoken produces an opaque
string. -/
inductive JVal where
  | str : String → JVal
  | num : Nat → JVal
  | tok : TokenVal → JVal
  | obj : List (String × JVal) → JVal

end Jaycrest

namespace Jaycrest

/-- Model of `jwt.sign(payload, secret, { expiresIn: ttl })` at clock time `now`. -/
def jwtSign (payload : JwtPayload) (secret : String) (now ttl : Nat) : TokenVal :=
  ⟨payload, now, now + ttl, secret⟩

/-- The `expiresIn: "1d"` window — one day in seconds. -/
def oneDay : Nat := 86400

/-- Model of `jwt.verify(token, secret)` at clock time `now`: rejects a signature made
with a different secret, rejects an elapsed expiry (jsonwebtoken fails when
`now >= exp`), otherwise returns the payload. -/
def jwtVerify (t : TokenVal) (secret : String) (now : Nat) :
    Except String JwtPayload :=
  if t.secret ≠ secret then .error "invalid signature"
  else if t.exp ≤ now then .error "jwt expired"
  else .ok t.payload

/-- Model of a bcrypt digest: opaque, determined by plaintext and cost. -/
structure BcryptHash where
  plaintext : String
  cost : Nat
deriving DecidableEq, Repr

/-- Model of `bcrypt.hash(password, cost)`. -/
def bcryptHash (password : String) (cost : Nat) : BcryptHash :=
  ⟨password, cost⟩

/-- Model of `bcrypt.compare(password, digest)` on string arguments. -/
def bcryptCompare (password : String) (h : BcryptHash) : Bool :=
  password == h.plaintext

/-- Model of `bcrypt.compare` as actually invoked by the login handlers, where the
first argument comes straight from `req.body` and may be `undefined`
(`none`): bcryptjs rejects with `Error: Illegal arguments` on a
non-string, which the handlers do not catch. -/
def bcryptCompareJs (password : Option String) (h : BcryptHash) :
    Except String Bool :=
  match password with
  | none => .error "Illegal arguments: undefined, string"
  | some p => .ok (bcryptCompare p h)

/-- A stored row of the `users` table. -/
structure Account where
  id : Nat
  email : String
  password_hash : BcryptHash
  role : String
deriving DecidableEq, Repr

/-- The `users` table: its rows and the `SERIAL` id counter. -/
structure Store where
  accounts : List Account
  nextId : Nat
deriving DecidableEq, Repr

/-- Postgres errors the handlers can observe, with their SQLSTATE codes. -/
inductive DbError where
  | uniqueViolation
  | checkViolation
  | notNullViolation
  | connectionFailure
deriving DecidableEq, Repr

/-- The `err.code` string as the catch blocks read it. -/
def DbError.code : DbError → String
  | .uniqueViolation => "23505"
  | .checkViolation => "23514"
  | .notNullViolation => "23502"
  | .connectionFailure => "08006"

/-- Model of `SELECT * FROM users WHERE email = $1`. -/
def findAccountByEmail (s : Store) (email : String) : Option Account :=
  s.accounts.find? (fun a => a.email == email)

/-- The role `CHECK` constraint of the `users` DDL in `part_000`:
`role IN (student, lecturer, admin)` (values quoted in the SQL). -/
def roleAllowed (role : String) : Bool :=
  role == "student" || role == "lecturer" || role == "admin"

/-- Model of `INSERT INTO users` against the `part_000` schema, whose `users` table
has `email TEXT UNIQUE` and `role TEXT CHECK (role IN
(student, lecturer, admin))` (values quoted in the SQL). -/
def insertAccountP (s : Store) (email : String) (h : BcryptHash)
    (role : String) : Except DbError (Account × Store) :=
  if s.accounts.any (fun a => a.email == email) then .error .uniqueViolation
  else if ¬ roleAllowed role then .error .checkViolation
  else
    let a : Account := ⟨s.nextId, email, h, role⟩
    .ok (a, ⟨s.accounts ++ [a], s.nextId + 1⟩)

/-- Model of `INSERT INTO users` against the `server.js` schema, whose `users` table
has `email TEXT UNIQUE` but NO check constraint on `role`. -/
def insertAccountS (s : Store) (email : String) (h : BcryptHash)
    (role : String) : Except DbError (Account × Store) :=
  if s.accounts.any (fun a => a.email == email) then .error .uniqueViolation
  else
    let a : Account := ⟨s.nextId, email, h, role⟩
    .ok (a, ⟨s.accounts ++ [a], s.nextId + 1⟩)

/-- An HTTP response: status code and JSON body. -/
structure Response where
  status : Nat
  body : JVal

/-- A request body for the register endpoints; each field may be absent
(`undefined` after destructuring). -/
structure RegisterReq where
  email : Option String
  password : Option String
  role : Option String

/-- A request body for the login endpoints. -/
structure LoginReq where
  email : Option String
  password : Option String

/-- JavaScript falsiness of an optional string field (`undefined` and `""`
are falsy). -/
def falsyStr : Option String → Bool
  | none => true
  | some s => s == ""

/-- The catch block of `POST /auth/register` in `part_000`:
`err.code === "23505"` maps to 400 "Email already exists", anything else
to 500 "Registration failed". -/
def catchRegisterP (e : DbError) : Response :=
  if e.code == "23505" then ⟨400, .obj [("error", .str "Email already exists")]⟩
  else ⟨500, .obj [("error", .str "Registration failed")]⟩

/-- Handler of `POST /auth/register` from `part_000`: reject falsy fields with 400,
hash the password at cost 10, insert, answer 201 `{ user: {id,email,role} }`;
failures go through the catch block. -/
def registerP (s : Store) (req : RegisterReq) : Response × Store :=
  if falsyStr req.email || falsyStr req.password || falsyStr req.role then
    (⟨400, .obj [("error", .str "All fields required")]⟩, s)
  else
    match req.email, req.password, req.role with
    | some email, some password, some role =>
      match insertAccountP s email (bcryptHash password 10) role with
      | .ok (a, s') =>
          (⟨201, .obj [("user", .obj
            [("id", .num a.id), ("email", .str a.email),
             ("role", .str a.role)])]⟩, s')
      | .error e => (catchRegisterP e, s)
    | _, _, _ => (⟨400, .obj [("error", .str "All fields required")]⟩, s)

/-- Handler of `POST /api/auth/register` from `server.js`: no validation at all; every
thrown error — `bcrypt.hash` on a missing password, a NOT NULL violation
from a missing field, a uniqueness violation, anything — is caught by the
single catch and answered 400 "Registration failed"; success answers 201
with the bare `{id,email,role}` row. -/
def registerS (s : Store) (req : RegisterReq) : Response × Store :=
  match req.password with
  | none => (⟨400, .obj [("error", .str "Registration failed")]⟩, s)
  | some password =>
    match req.email, req.role with
    | some email, some role =>
      match insertAccountS s email (bcryptHash password 10) role with
      | .ok (a, s') =>
          (⟨201, .obj
            [("id", .num a.id), ("email", .str a.email),
             ("role", .str a.role)]⟩, s')
      | .error _ => (⟨400, .obj [("error", .str "Registration failed")]⟩, s)
    | _, _ => (⟨400, .obj [("error", .str "Registration failed")]⟩, s)

/-- Handler of `POST /auth/login` from `part_000`: look up by email (an absent email
matches no row), 401 "Invalid credentials" when no row or when
`bcrypt.compare` says no; otherwise sign `{id, role}` with `expiresIn: "1d"`
and answer 200 `{ token, user: {id,email,role} }`.  The handler has no
try/catch: a `bcrypt.compare` rejection escapes (`Except.error`). -/
def loginP (s : Store) (secret : String) (now : Nat) (req : LoginReq) :
    Except String Response :=
  let row := match req.email with
    | none => none
    | some e => findAccountByEmail s e
  match row with
  | none => .ok ⟨401, .obj [("error", .str "Invalid credentials")]⟩
  | some user =>
    match bcryptCompareJs req.password user.password_hash with
    | .error e => .error e
    | .ok valid =>
      if valid then
        .ok ⟨200, .obj
          [("token", .tok (jwtSign ⟨user.id, user.role⟩ secret now oneDay)),
           ("user", .obj [("id", .num user.id), ("email", .str user.email),
                          ("role", .str user.role)])]⟩
      else .ok ⟨401, .obj [("error", .str "Invalid credentials")]⟩

/-- Handler of `POST /api/auth/login` from `server.js`: same flow, but the 200 body is
only `{ token }`.  Also no try/catch around `bcrypt.compare`. -/
def loginS (s : Store) (secret : String) (now : Nat) (req : LoginReq) :
    Except String Response :=
  let row := match req.email with
    | none => none
    | some e => findAccountByEmail s e
  match row with
  | none => .ok ⟨401, .obj [("error", .str "Invalid credentials")]⟩
  | some user =>
    match bcryptCompareJs req.password user.password_hash with
    | .error e => .error e
    | .ok ok =>
      if ok then
        .ok ⟨200, .obj
          [("token", .tok (jwtSign ⟨user.id, user.role⟩ secret now oneDay))]⟩
      else .ok ⟨401, .obj [("error", .str "Invalid credentials")]⟩

/-- What `header.split(" ")[1]` yields in the middleware once the header is
known to be truthy: either there is no second chunk (`noChunk`, e.g. header
`"Bearer"`), or the chunk is not a token signed by anybody (`garbage`), or
it is a signed token. -/
inductive TokenChunk where
  | noChunk
  | garbage
  | tok : TokenVal → TokenChunk
deriving DecidableEq, Repr

/-- The header `req.headers.authorization` as the middleware sees it: absent, the empty
string (falsy in JS, so it takes the `!header` branch), or a present truthy
header carrying some `TokenChunk` after the split. -/
inductive AuthHeader where
  | missing
  | empty
  | present : TokenChunk → AuthHeader
deriving DecidableEq, Repr

/-- The `auth` middleware (identical in both files): a falsy header answers
401 "No token" / "No token provided"; otherwise `jwt.verify` runs on the
second chunk — `undefined` or garbage makes it throw, and the catch answers
401 "Invalid token"; on success `req.user` becomes the payload.  The two
files differ only in the missing-token message, passed in as `noTokenMsg`. -/
def authMiddleware (noTokenMsg : String) (h : AuthHeader) (secret : String)
    (now : Nat) : Except Response JwtPayload :=
  match h with
  | .missing => .error ⟨401, .obj [("error", .str noTokenMsg)]⟩
  | .empty => .error ⟨401, .obj [("error", .str noTokenMsg)]⟩
  | .present chunk =>
    match chunk with
    | .noChunk => .error ⟨401, .obj [("error", .str "Invalid token")]⟩
    | .garbage => .error ⟨401, .obj [("error", .str "Invalid token")]⟩
    | .tok t =>
      match jwtVerify t secret now with
      | .ok p => .ok p
      | .error _ => .error ⟨401, .obj [("error", .str "Invalid token")]⟩

/-- The `part_000` middleware message: `"No token"`. -/
def authP (h : AuthHeader) (secret : String) (now : Nat) :
    Except Response JwtPayload :=
  authMiddleware "No token" h secret now

/-- The `server.js` middleware message: `"No token provided"`. -/
def authS (h : AuthHeader) (secret : String) (now : Nat) :
    Except Response JwtPayload :=
  authMiddleware "No token provided" h secret now

/-- The role gate at the top of `POST /students/profile`:
`if (req.user.role !== requiredRole) return 403`, instantiated in the source
with `requiredRole = "student"` and body `{ error: "Only students allowed" }`.
`none` means the gate admits the request. -/
def roleGate (identity : JwtPayload) (requiredRole : String) (msg : String) :
    Option Response :=
  if identity.role ≠ requiredRole then some ⟨403, .obj [("error", .str msg)]⟩
  else none

/-- The concrete gate of `POST /students/profile`. -/
def studentsProfileGate (identity : JwtPayload) : Option Response :=
  roleGate identity "student" "Only students allowed"

mutual

/-- Whether a JSON value contains a field named `k` at any depth. -/
def containsKey : JVal → String → Bool
  | .obj fields, k => containsKeyFields fields k
  | _, _ => false

/-- Whether a field list contains a field named `k` at any depth. -/
def containsKeyFields : List (String × JVal) → String → Bool
  | [], _ => false
  | (k', v) :: rest, k =>
      k' == k || containsKey v k || containsKeyFields rest k

end

/-- Whether a JSON object has `k` as a top-level field. -/
def topKey : JVal → String → Bool
  | .obj fields, k => fields.any (fun f => f.1 == k)
  | _, _ => false

/-- Auxiliary: `find?` over an append skips a prefix in which nothing matches. -/
theorem find?_append_of_none {α : Type} (p : α → Bool) (l₁ l₂ : List α)
    (h : l₁.find? p = none) : (l₁ ++ l₂).find? p = l₂.find? p := by
  rw [List.find?_append, h, Option.none_or]

end Jaycrest

namespace Jaycrest

/-- C2: a token signed by the login handler (`jwt.sign({id, role}, secret,
{expiresIn: "1d"})`) immediately passes the `auth` middleware under the same
secret and clock, and the resulting `req.user` identity carries exactly the
id and role of the account. -/
theorem issued_token_roundtrip (a : Account) (secret : String) (now : Nat) :
    authP (.present (.tok (jwtSign ⟨a.id, a.role⟩ secret now oneDay)))
      secret now = .ok ⟨a.id, a.role⟩ := by
  simp [authP, authMiddleware, jwtVerify, jwtSign, oneDay]

/-- C9: a token whose expiry has elapsed is rejected by the middleware even
when verified against its own signing secret; the window is fixed at
issuance to `iat + oneDay`, and `oneDay` is 24 hours. -/
theorem expired_token_rejected (t : TokenVal) (now : Nat) (h : t.exp ≤ now) :
    authP (.present (.tok t)) t.secret now =
      .error ⟨401, .obj [("error", .str "Invalid token")]⟩ ∧
    (∀ payload secret t0, (jwtSign payload secret t0 oneDay).exp = t0 + oneDay) ∧
    oneDay = 24 * 60 * 60 := by
  refine ⟨?_, fun _ _ _ => rfl, rfl⟩
  simp [authP, authMiddleware, jwtVerify, h]

/-- Witness for C9 at a concrete expired token. -/
theorem expired_token_rejected_witness :
    authP (.present (.tok (jwtSign ⟨1, "student"⟩ "sec" 0 oneDay)))
      "sec" 86400 = .error ⟨401, .obj [("error", .str "Invalid token")]⟩ :=
  (expired_token_rejected (jwtSign ⟨1, "student"⟩ "sec" 0 oneDay) 86400
    (by decide)).1

/-- C10: a login request whose body lacks `password` but whose email matches
a stored account makes `bcrypt.compare` reject, and, the handlers having no
try/catch, the rejection escapes instead of the uniform 401 — in both
`POST /auth/login` and `POST /api/auth/login`. -/
theorem login_missing_password_escapes :
    loginP ⟨[⟨1, "a@x.com", ⟨"pw", 10⟩, "student"⟩], 2⟩ "sec" 0
        ⟨some "a@x.com", none⟩ =
      .error "Illegal arguments: undefined, string" ∧
    loginS ⟨[⟨1, "a@x.com", ⟨"pw", 10⟩, "student"⟩], 2⟩ "sec" 0
        ⟨some "a@x.com", none⟩ =
      .error "Illegal arguments: undefined, string" ∧
    (∀ r : Response,
      (Except.error "Illegal arguments: undefined, string" :
        Except String Response) ≠ .ok r) := by
  refine ⟨rfl, rfl, fun r h => by cases h⟩

/-- C7: the role gate admits exactly on role equality, a mismatch yields a
403 response, every authentication failure of the middleware is a 401, and
the concrete `/students/profile` gate rejects a lecturer identity — so
authorization failure is distinct from authentication failure. -/
theorem role_gate_exact_match (identity : JwtPayload)
    (requiredRole msg : String) :
    (roleGate identity requiredRole msg = none ↔
      identity.role = requiredRole) ∧
    (identity.role ≠ requiredRole →
      roleGate identity requiredRole msg =
        some ⟨403, .obj [("error", .str msg)]⟩) ∧
    (∀ h secret now r, authP h secret now = .error r → r.status = 401) ∧
    (∀ r r', roleGate identity requiredRole msg = some r →
      (∃ h secret now, authP h secret now = .error r') →
      r.status ≠ r'.status) ∧
    studentsProfileGate ⟨identity.id, "lecturer"⟩ =
      some ⟨403, .obj [("error", .str "Only students allowed")]⟩ := by
  have hauth : ∀ h secret now r,
      authP h secret now = .error r → r.status = 401 := by
    intro h secret now r he
    cases h with
    | missing => cases he; rfl
    | empty => cases he; rfl
    | present chunk =>
      cases chunk with
      | noChunk => cases he; rfl
      | garbage => cases he; rfl
      | tok t =>
        simp only [authP, authMiddleware] at he
        split at he
        · cases he
        · cases he; rfl
  refine ⟨?_, ?_, hauth, ?_, ?_⟩
  · constructor
    · intro h
      by_contra hne
      simp [roleGate, hne] at h
    · intro h
      simp [roleGate, h]
  · intro h
    simp [roleGate, h]
  · rintro r r' hgate ⟨h, secret, now, he⟩
    have h403 : r.status = 403 := by
      unfold roleGate at hgate
      split at hgate
      · cases hgate; rfl
      · cases hgate
    rw [h403, hauth h secret now r' he]
    decide
  · simp [studentsProfileGate, roleGate]

/-- Witness for C7: a lecturer identity against the student gate is a 403,
and the missing-header failure of the middleware is a 401. -/
theorem role_gate_exact_match_witness :
    (roleGate ⟨1, "lecturer"⟩ "student" "Only students allowed" =
      some ⟨403, .obj [("error", .str "Only students allowed")]⟩) ∧
    (∀ r, roleGate ⟨1, "lecturer"⟩ "student" "Only students allowed" = some r →
      (∃ h secret now, authP h secret now = .error r) → False) := by
  have h := role_gate_exact_match ⟨1, "lecturer"⟩ "student"
    "Only students allowed"
  refine ⟨h.2.1 (by decide), ?_⟩
  rintro r hg ⟨hh, secret, now, he⟩
  exact (h.2.2.2.1 r r hg ⟨hh, secret, now, he⟩) rfl

/-- C8 counterexample: a header that is present but malformed — no second
chunk after `split(" ")`, e.g. the literal header `"Bearer"` — makes
`jwt.verify(undefined, secret)` throw, so the middleware answers the
invalid-token response, NOT the missing-token one the claim requires for
every malformed header. -/
theorem malformed_header_takes_invalid_path :
    authP (.present .noChunk) "sec" 0 =
      .error ⟨401, .obj [("error", .str "Invalid token")]⟩ ∧
    authP .missing "sec" 0 =
      .error ⟨401, .obj [("error", .str "No token")]⟩ ∧
    (Response.mk 401 (.obj [("error", .str "Invalid token")]) ≠
      Response.mk 401 (.obj [("error", .str "No token")])) := by
  refine ⟨rfl, rfl, fun h => ?_⟩
  have hb := congrArg Response.body h
  simp only [JVal.obj.injEq, List.cons.injEq, Prod.mk.injEq, and_true] at hb
  injection hb.2 with hs
  exact absurd hs (by decide)

/-- C8 amended: an absent or empty credential header fails with the
missing-token response, which differs from the invalid-token response of a
bad signature, and an empty or missing header never takes the
invalid-signature path; but a header that is present and malformed (no
token chunk) takes the invalid-token path. -/
theorem auth_missing_vs_invalid (secret : String) (now : Nat) :
    authP .missing secret now =
      .error ⟨401, .obj [("error", .str "No token")]⟩ ∧
    authP .empty secret now =
      .error ⟨401, .obj [("error", .str "No token")]⟩ ∧
    (∀ t : TokenVal, t.secret ≠ secret →
      authP (.present (.tok t)) secret now =
        .error ⟨401, .obj [("error", .str "Invalid token")]⟩) ∧
    authP (.present .noChunk) secret now =
      .error ⟨401, .obj [("error", .str "Invalid token")]⟩ ∧
    (Response.mk 401 (.obj [("error", .str "No token")]) ≠
      Response.mk 401 (.obj [("error", .str "Invalid token")])) := by
  refine ⟨rfl, rfl, fun t ht => ?_, rfl, fun h => ?_⟩
  · simp [authP, authMiddleware, jwtVerify, ht]
  · have hb := congrArg Response.body h
    simp only [JVal.obj.injEq, List.cons.injEq, Prod.mk.injEq, and_true]
      at hb
    injection hb.2 with hs
    exact absurd hs (by decide)

/-- Witness for the amended theorem of C8: a token signed with a different
secret is rejected with the invalid-token response. -/
theorem auth_missing_vs_invalid_witness :
    authP (.present (.tok (jwtSign ⟨1, "student"⟩ "other" 0 oneDay)))
      "sec" 0 = .error ⟨401, .obj [("error", .str "Invalid token")]⟩ :=
  (auth_missing_vs_invalid "sec" 0).2.2.1
    (jwtSign ⟨1, "student"⟩ "other" 0 oneDay) (by decide)

/-- C4: the login handlers in both files answer an unknown email and a known
email with a wrong password with literally the same response — status 401,
body `{ error: "Invalid credentials" }` — so the two runs are externally
indistinguishable. -/
theorem login_uniform_failure (s : Store) (secret : String) (now : Nat)
    (e1 p1 e2 p2 : String) (a : Account)
    (h1 : findAccountByEmail s e1 = none)
    (h2 : findAccountByEmail s e2 = some a)
    (hw : p2 ≠ a.password_hash.plaintext) :
    loginP s secret now ⟨some e1, some p1⟩ =
      .ok ⟨401, .obj [("error", .str "Invalid credentials")]⟩ ∧
    loginP s secret now ⟨some e2, some p2⟩ =
      .ok ⟨401, .obj [("error", .str "Invalid credentials")]⟩ ∧
    loginP s secret now ⟨some e1, some p1⟩ =
      loginP s secret now ⟨some e2, some p2⟩ ∧
    loginS s secret now ⟨some e1, some p1⟩ =
      loginS s secret now ⟨some e2, some p2⟩ := by
  have hc : bcryptCompare p2 a.password_hash = false := by
    simpa [bcryptCompare] using hw
  have l1 : loginP s secret now ⟨some e1, some p1⟩ =
      .ok ⟨401, .obj [("error", .str "Invalid credentials")]⟩ := by
    simp [loginP, h1]
  have l2 : loginP s secret now ⟨some e2, some p2⟩ =
      .ok ⟨401, .obj [("error", .str "Invalid credentials")]⟩ := by
    simp [loginP, h2, bcryptCompareJs, hc]
  have l3 : loginS s secret now ⟨some e1, some p1⟩ =
      .ok ⟨401, .obj [("error", .str "Invalid credentials")]⟩ := by
    simp [loginS, h1]
  have l4 : loginS s secret now ⟨some e2, some p2⟩ =
      .ok ⟨401, .obj [("error", .str "Invalid credentials")]⟩ := by
    simp [loginS, h2, bcryptCompareJs, hc]
  exact ⟨l1, l2, l1.trans l2.symm, l3.trans l4.symm⟩

/-- Witness for C4 at a concrete store: unknown `nobody` vs wrong password
for the stored `a@x.com` account. -/
theorem login_uniform_failure_witness :
    loginP ⟨[⟨1, "a@x.com", ⟨"pw", 10⟩, "student"⟩], 2⟩ "sec" 0
        ⟨some "nobody", some "x"⟩ =
      .ok ⟨401, .obj [("error", .str "Invalid credentials")]⟩ ∧
    loginP ⟨[⟨1, "a@x.com", ⟨"pw", 10⟩, "student"⟩], 2⟩ "sec" 0
        ⟨some "a@x.com", some "bad"⟩ =
      .ok ⟨401, .obj [("error", .str "Invalid credentials")]⟩ :=
  have h := login_uniform_failure ⟨[⟨1, "a@x.com", ⟨"pw", 10⟩, "student"⟩], 2⟩
    "sec" 0 "nobody" "x" "a@x.com" "bad" ⟨1, "a@x.com", ⟨"pw", 10⟩, "student"⟩
    (by decide) (by decide) (by decide)
  ⟨h.1, h.2.1⟩

/-- C3 counterexample: in `POST /api/auth/register` (`server.js`) the
uniqueness violation on a duplicate email is answered with the same generic
400 "Registration failed" as any other failure (here: a missing password
making `bcrypt.hash` throw), so the storage-level uniqueness violation is
NOT mapped to a distinct duplicate-email error kind. -/
theorem registerS_duplicate_is_generic :
    (registerS ⟨[⟨1, "a@x.com", ⟨"pw", 10⟩, "student"⟩], 2⟩
        ⟨some "a@x.com", some "pw2", some "student"⟩).1 =
      ⟨400, .obj [("error", .str "Registration failed")]⟩ ∧
    (registerS ⟨[⟨1, "a@x.com", ⟨"pw", 10⟩, "student"⟩], 2⟩
        ⟨some "b@x.com", none, some "student"⟩).1 =
      ⟨400, .obj [("error", .str "Registration failed")]⟩ ∧
    (registerS ⟨[⟨1, "a@x.com", ⟨"pw", 10⟩, "student"⟩], 2⟩
        ⟨some "a@x.com", some "pw2", some "student"⟩).1 =
      (registerS ⟨[⟨1, "a@x.com", ⟨"pw", 10⟩, "student"⟩], 2⟩
        ⟨some "b@x.com", none, some "student"⟩).1 :=
  ⟨rfl, rfl, rfl⟩

/-- C3 amended: in `POST /auth/register` (`part_000`) a duplicate email is
answered 400 "Email already exists" (the duplicate-email kind), the store
is left unchanged, and every other storage error code is mapped by the
catch block to the generic 500 "Registration failed" (the storage-error
kind); `POST /api/auth/register` instead conflates all failures into one
generic 400. -/
theorem registerP_duplicate_error (s : Store) (email password role : String)
    (hmem : ∃ a ∈ s.accounts, a.email = email)
    (he : email ≠ "") (hp : password ≠ "") (hr : role ≠ "") :
    registerP s ⟨some email, some password, some role⟩ =
      (⟨400, .obj [("error", .str "Email already exists")]⟩, s) ∧
    (∀ e : DbError, e ≠ .uniqueViolation →
      catchRegisterP e = ⟨500, .obj [("error", .str "Registration failed")]⟩) ∧
    catchRegisterP .uniqueViolation =
      ⟨400, .obj [("error", .str "Email already exists")]⟩ := by
  refine ⟨?_, ?_, rfl⟩
  · have hany : s.accounts.any (fun a => a.email == email) = true := by
      rw [List.any_eq_true]
      obtain ⟨a, ha, hae⟩ := hmem
      exact ⟨a, ha, by simp [hae]⟩
    simp [registerP, falsyStr, he, hp, hr, insertAccountP, hany,
      catchRegisterP, DbError.code]
  · intro e hne
    cases e with
    | uniqueViolation => exact absurd rfl hne
    | checkViolation => rfl
    | notNullViolation => rfl
    | connectionFailure => rfl

/-- Witness for the amended theorem of C3 at a concrete one-account store. -/
theorem registerP_duplicate_error_witness :
    registerP ⟨[⟨1, "a@x.com", ⟨"pw", 10⟩, "student"⟩], 2⟩
        ⟨some "a@x.com", some "pw2", some "admin"⟩ =
      (⟨400, .obj [("error", .str "Email already exists")]⟩,
       ⟨[⟨1, "a@x.com", ⟨"pw", 10⟩, "student"⟩], 2⟩) :=
  (registerP_duplicate_error ⟨[⟨1, "a@x.com", ⟨"pw", 10⟩, "student"⟩], 2⟩
    "a@x.com" "pw2" "admin"
    ⟨⟨1, "a@x.com", ⟨"pw", 10⟩, "student"⟩, by simp, rfl⟩
    (by decide) (by decide) (by decide)).1

/-- C5 counterexample: a register request with a non-empty role outside the
enumeration passes the only handler validation (`!email || !password ||
!role`); in `part_000` the database check constraint then rejects it and
the catch maps it to 500 "Registration failed" — a storage error, not the
400 `ValidationError` the claim requires — and in `server.js`, whose
schema has no check constraint, the account with role `"hacker"` is
actually created (201). -/
theorem register_bad_role_not_validation_error :
    (registerP ⟨[], 1⟩ ⟨some "a@x.com", some "pw", some "hacker"⟩).1 =
      ⟨500, .obj [("error", .str "Registration failed")]⟩ ∧
    registerS ⟨[], 1⟩ ⟨some "a@x.com", some "pw", some "hacker"⟩ =
      (⟨201, .obj [("id", .num 1), ("email", .str "a@x.com"),
        ("role", .str "hacker")]⟩,
       ⟨[⟨1, "a@x.com", ⟨"pw", 10⟩, "hacker"⟩], 2⟩) ∧
    roleAllowed "hacker" = false :=
  ⟨rfl, rfl, rfl⟩

/-- A successful `part_000` insert comes from a fresh email and an allowed
role, and appends exactly the new row. -/
theorem insertAccountP_ok {s : Store} {email : String} {h : BcryptHash}
    {role : String} {a : Account} {s' : Store}
    (hins : insertAccountP s email h role = .ok (a, s')) :
    a = ⟨s.nextId, email, h, role⟩ ∧
    s' = ⟨s.accounts ++ [a], s.nextId + 1⟩ ∧
    roleAllowed role = true := by
  unfold insertAccountP at hins
  split at hins
  · cases hins
  · split at hins
    · cases hins
    · next hr =>
      cases hins
      exact ⟨rfl, rfl, by simpa using hr⟩

/-- The `part_000` register handler never stores a role outside the
enumeration: if every stored role is allowed, that is still true after any
register request. -/
theorem registerP_roles_preserved (s : Store) (req : RegisterReq)
    (hall : ∀ a ∈ s.accounts, roleAllowed a.role = true) :
    ∀ a ∈ (registerP s req).2.accounts, roleAllowed a.role = true := by
  obtain ⟨oe, op, oro⟩ := req
  rcases oe with _ | email
  · simpa [registerP, falsyStr] using hall
  rcases op with _ | password
  · simpa [registerP, falsyStr] using hall
  rcases oro with _ | role
  · simpa [registerP, falsyStr] using hall
  by_cases hf : (falsyStr (some email) || falsyStr (some password) ||
      falsyStr (some role)) = true
  · simpa [registerP, hf] using hall
  rcases hins : insertAccountP s email (bcryptHash password 10) role
      with e | ⟨a', s'⟩
  · simpa [registerP, hf, hins] using hall
  · obtain ⟨ha', hs', hrole⟩ := insertAccountP_ok hins
    intro a ha
    simp only [registerP, hf, Bool.false_eq_true, if_false, hins] at ha
    rw [hs'] at ha
    simp only [List.mem_append, List.mem_singleton] at ha
    rcases ha with ha | ha
    · exact hall a ha
    · rw [ha, ha']
      exact hrole

/-- C5 amended: `POST /auth/register` rejects a missing or empty email,
password or role with 400 "All fields required" (`ValidationError`) and
leaves the store unchanged; but a non-empty role outside
{student, lecturer, admin} passes that validation and is rejected only by
the database check constraint, surfacing as 500 "Registration failed"
(`StorageError`), not as a `ValidationError` — while still never creating
an account with a role outside the enumeration. -/
theorem registerP_validation (s : Store) (req : RegisterReq) :
    ((falsyStr req.email || falsyStr req.password || falsyStr req.role)
        = true →
      registerP s req =
        (⟨400, .obj [("error", .str "All fields required")]⟩, s)) ∧
    (∀ email password role, email ≠ "" → password ≠ "" → role ≠ "" →
      roleAllowed role = false → findAccountByEmail s email = none →
      registerP s ⟨some email, some password, some role⟩ =
        (⟨500, .obj [("error", .str "Registration failed")]⟩, s)) ∧
    ((∀ a ∈ s.accounts, roleAllowed a.role = true) →
      ∀ a ∈ (registerP s req).2.accounts, roleAllowed a.role = true) := by
  refine ⟨?_, ?_, registerP_roles_preserved s req⟩
  · intro hf
    simp [registerP, hf]
  · intro email password role he hp hr hrole hfresh
    have hany : s.accounts.any (fun a => a.email == email) = false := by
      rw [List.any_eq_false]
      intro x hx
      exact List.find?_eq_none.1 hfresh x hx
    simp [registerP, falsyStr, he, hp, hr, insertAccountP, hany, hrole,
      catchRegisterP, DbError.code]

/-- Witness for the amended theorem of C5: an empty email is a 400
`ValidationError`; role `"hacker"` on a fresh email is a 500. -/
theorem registerP_validation_witness :
    registerP ⟨[], 1⟩ ⟨some "", some "pw", some "student"⟩ =
      (⟨400, .obj [("error", .str "All fields required")]⟩, ⟨[], 1⟩) ∧
    registerP ⟨[], 1⟩ ⟨some "a@x.com", some "pw", some "hacker"⟩ =
      (⟨500, .obj [("error", .str "Registration failed")]⟩, ⟨[], 1⟩) :=
  ⟨(registerP_validation ⟨[], 1⟩ ⟨some "", some "pw", some "student"⟩).1
      (by decide),
   (registerP_validation ⟨[], 1⟩
      ⟨some "a@x.com", some "pw", some "hacker"⟩).2.1 "a@x.com" "pw" "hacker"
      (by decide) (by decide) (by decide) (by decide) (by decide)⟩

/-- C6 counterexample: a successful `POST /auth/login` answers 200, but the
body nests the account fields under `user` — there is no top-level `id`,
`email` or `role` field, contrary to the claimed flat
`{token, id, email, role}` shape — and `POST /api/auth/login` returns only
`{token}`. -/
theorem login_success_body_not_flat :
    loginP ⟨[⟨1, "a@x.com", ⟨"pw", 10⟩, "student"⟩], 2⟩ "sec" 0
        ⟨some "a@x.com", some "pw"⟩ =
      .ok ⟨200, .obj
        [("token", .tok ⟨⟨1, "student"⟩, 0, 86400, "sec"⟩),
         ("user", .obj [("id", .num 1), ("email", .str "a@x.com"),
                        ("role", .str "student")])]⟩ ∧
    topKey (JVal.obj
      [("token", .tok ⟨⟨1, "student"⟩, 0, 86400, "sec"⟩),
       ("user", .obj [("id", .num 1), ("email", .str "a@x.com"),
                      ("role", .str "student")])]) "id" = false ∧
    topKey (JVal.obj
      [("token", .tok ⟨⟨1, "student"⟩, 0, 86400, "sec"⟩),
       ("user", .obj [("id", .num 1), ("email", .str "a@x.com"),
                      ("role", .str "student")])]) "email" = false ∧
    topKey (JVal.obj
      [("token", .tok ⟨⟨1, "student"⟩, 0, 86400, "sec"⟩),
       ("user", .obj [("id", .num 1), ("email", .str "a@x.com"),
                      ("role", .str "student")])]) "role" = false ∧
    loginS ⟨[⟨1, "a@x.com", ⟨"pw", 10⟩, "student"⟩], 2⟩ "sec" 0
        ⟨some "a@x.com", some "pw"⟩ =
      .ok ⟨200, .obj [("token", .tok ⟨⟨1, "student"⟩, 0, 86400, "sec"⟩)]⟩ :=
  ⟨rfl, rfl, rfl, rfl, rfl⟩

/-- C6 amended: a successful login answers 200 with body
`{token, user: {id, email, role}}` in `POST /auth/login` — the account
fields nested under `user`, matching the stored account — and `{token}`
alone in `POST /api/auth/login`; every failed login (unknown email or
wrong password) answers 401 `{error}`. -/
theorem login_response_shape (s : Store) (secret : String) (now : Nat)
    (email : String) (a : Account)
    (hfound : findAccountByEmail s email = some a) :
    loginP s secret now ⟨some email, some a.password_hash.plaintext⟩ =
      .ok ⟨200, .obj
        [("token", .tok (jwtSign ⟨a.id, a.role⟩ secret now oneDay)),
         ("user", .obj [("id", .num a.id), ("email", .str a.email),
                        ("role", .str a.role)])]⟩ ∧
    loginS s secret now ⟨some email, some a.password_hash.plaintext⟩ =
      .ok ⟨200, .obj
        [("token", .tok (jwtSign ⟨a.id, a.role⟩ secret now oneDay))]⟩ ∧
    (∀ e p, findAccountByEmail s e = none →
      loginP s secret now ⟨some e, some p⟩ =
        .ok ⟨401, .obj [("error", .str "Invalid credentials")]⟩) ∧
    (∀ p, p ≠ a.password_hash.plaintext →
      loginP s secret now ⟨some email, some p⟩ =
        .ok ⟨401, .obj [("error", .str "Invalid credentials")]⟩) := by
  refine ⟨?_, ?_, ?_, ?_⟩
  · simp [loginP, hfound, bcryptCompareJs, bcryptCompare]
  · simp [loginS, hfound, bcryptCompareJs, bcryptCompare]
  · intro e p hnone
    simp [loginP, hnone]
  · intro p hne
    have hc : bcryptCompare p a.password_hash = false := by
      simpa [bcryptCompare] using hne
    simp [loginP, hfound, bcryptCompareJs, hc]

/-- Witness for the amended theorem of C6 at a concrete store and login. -/
theorem login_response_shape_witness :
    loginP ⟨[⟨1, "a@x.com", ⟨"pw", 10⟩, "student"⟩], 2⟩ "sec" 5
        ⟨some "a@x.com", some "pw"⟩ =
      .ok ⟨200, .obj
        [("token", .tok (jwtSign ⟨1, "student"⟩ "sec" 5 oneDay)),
         ("user", .obj [("id", .num 1), ("email", .str "a@x.com"),
                        ("role", .str "student")])]⟩ ∧
    loginP ⟨[⟨1, "a@x.com", ⟨"pw", 10⟩, "student"⟩], 2⟩ "sec" 5
        ⟨some "a@x.com", some "nope"⟩ =
      .ok ⟨401, .obj [("error", .str "Invalid credentials")]⟩ :=
  have h := login_response_shape ⟨[⟨1, "a@x.com", ⟨"pw", 10⟩, "student"⟩], 2⟩
    "sec" 5 "a@x.com" ⟨1, "a@x.com", ⟨"pw", 10⟩, "student"⟩ (by decide)
  ⟨h.1, h.2.2.2 "nope" (by decide)⟩

/-- C1: a register with a non-empty email, a non-empty password, a role in
the enumeration and a fresh email answers 201, a following login with the
same credentials answers 200 with the registered email and role in the
returned account, and no returned projection — the register body of either
endpoint or the login body — carries a `password_hash` field. -/
theorem register_then_login_roundtrip (s : Store) (secret : String)
    (now : Nat) (email password role : String)
    (he : email ≠ "") (hp : password ≠ "") (hr : roleAllowed role = true)
    (hfresh : findAccountByEmail s email = none) :
    (registerP s ⟨some email, some password, some role⟩).1.status = 201 ∧
    containsKey (registerP s ⟨some email, some password, some role⟩).1.body
      "password_hash" = false ∧
    loginP (registerP s ⟨some email, some password, some role⟩).2 secret now
        ⟨some email, some password⟩ =
      .ok ⟨200, .obj
        [("token", .tok (jwtSign ⟨s.nextId, role⟩ secret now oneDay)),
         ("user", .obj [("id", .num s.nextId), ("email", .str email),
                        ("role", .str role)])]⟩ ∧
    containsKey (JVal.obj
      [("token", .tok (jwtSign ⟨s.nextId, role⟩ secret now oneDay)),
       ("user", .obj [("id", .num s.nextId), ("email", .str email),
                      ("role", .str role)])]) "password_hash" = false ∧
    containsKey (registerS s ⟨some email, some password, some role⟩).1.body
      "password_hash" = false := by
  have hrne : role ≠ "" := by
    intro h
    rw [h] at hr
    exact absurd hr (by decide)
  have hany : s.accounts.any (fun a => a.email == email) = false := by
    rw [List.any_eq_false]
    intro x hx
    exact List.find?_eq_none.1 hfresh x hx
  have hreg : registerP s ⟨some email, some password, some role⟩ =
      (⟨201, .obj [("user", .obj
        [("id", .num s.nextId), ("email", .str email),
         ("role", .str role)])]⟩,
       ⟨s.accounts ++ [⟨s.nextId, email, bcryptHash password 10, role⟩],
        s.nextId + 1⟩) := by
    simp [registerP, falsyStr, he, hp, hrne, insertAccountP, hany, hr]
  have hregS : registerS s ⟨some email, some password, some role⟩ =
      (⟨201, .obj
        [("id", .num s.nextId), ("email", .str email),
         ("role", .str role)]⟩,
       ⟨s.accounts ++ [⟨s.nextId, email, bcryptHash password 10, role⟩],
        s.nextId + 1⟩) := by
    simp [registerS, insertAccountS, hany]
  have hfind : findAccountByEmail
      ⟨s.accounts ++ [⟨s.nextId, email, bcryptHash password 10, role⟩],
       s.nextId + 1⟩ email =
      some ⟨s.nextId, email, bcryptHash password 10, role⟩ := by
    unfold findAccountByEmail at hfresh ⊢
    rw [find?_append_of_none _ _ _ hfresh]
    simp [List.find?]
  refine ⟨?_, ?_, ?_, ?_, ?_⟩
  · rw [hreg]
  · rw [hreg]
    simp [containsKey, containsKeyFields]
  · rw [hreg]
    simp only [bcryptHash] at hfind
    simp [loginP, hfind, bcryptCompareJs, bcryptCompare, bcryptHash, oneDay]
  · simp [containsKey, containsKeyFields]
  · rw [hregS]
    simp [containsKey, containsKeyFields]

/-- Witness for C1 at a concrete fresh store and valid input. -/
theorem register_then_login_roundtrip_witness :
    (registerP ⟨[], 1⟩ ⟨some "a@x.com", some "pw123", some "student"⟩).1.status
      = 201 ∧
    loginP (registerP ⟨[], 1⟩
        ⟨some "a@x.com", some "pw123", some "student"⟩).2 "sec" 100
        ⟨some "a@x.com", some "pw123"⟩ =
      .ok ⟨200, .obj
        [("token", .tok (jwtSign ⟨1, "student"⟩ "sec" 100 oneDay)),
         ("user", .obj [("id", .num 1), ("email", .str "a@x.com"),
                        ("role", .str "student")])]⟩ :=
  have h := register_then_login_roundtrip ⟨[], 1⟩ "sec" 100 "a@x.com" "pw123"
    "student" (by decide) (by decide) (by decide) (by decide)
  ⟨h.1, h.2.2.1⟩

end Jaycrest
